import Mathlib

/-!
Shallow embedding of the request-handling core of the API gateway
(`src/minos/api_gateway/rest/handler.py`).

Modelling conventions:
* Header multimaps (`multidict.CIMultiDict`) are ordered lists of
  (name, value) pairs with case-insensitive name comparison; the
  multidict operations used by the source (`getone` via `m[k]`,
  `__setitem__`, `pop`, conversion through `dict(...)`) are embedded
  with their library semantics.
* Every outbound network call (discovery query, authentication query,
  backend forward) is suspended on an explicit reply value supplied by
  an environment, so each handler becomes a pure function of the
  request, the configuration and the environment.
* `aiohttp` web exceptions raised by the handlers become constructors
  of `GatewayError`; Python exceptions that escape the handlers without
  being one of those (KeyError / ValueError / TypeError on the
  unguarded discovery success path) become `GatewayError.pythonError`.
* Bodies are byte lists; JSON bodies are association lists of a small
  JSON value type.
-/

set_option linter.unusedVariables false

namespace ApiGateway

/-- Case-insensitive equality on header names, as `multidict.CIMultiDict`
compares keys. -/
def ciEq (a b : String) : Bool := a.data.map Char.toLower = b.data.map Char.toLower

/-- A header multimap: ordered (name, value) pairs, duplicate and
case-varying names allowed. Models `multidict.CIMultiDict`. -/
structure HeaderMap where
  entries : List (String × String)
deriving Repr, DecidableEq

/-- `m[k]` on a `CIMultiDict`: the value of the first entry whose name
matches case-insensitively (`getone`). -/
def HeaderMap.getone (h : HeaderMap) (k : String) : Option String :=
  (h.entries.find? (fun p => ciEq p.1 k)).map (fun p => p.2)

/-- `k in m` on a `CIMultiDict`. -/
def HeaderMap.hasKey (h : HeaderMap) (k : String) : Bool :=
  h.entries.any (fun p => ciEq p.1 k)

/-- Entry-list part of `CIMultiDict.__setitem__`: the first matching
entry is replaced by the new pair and every later matching entry is
dropped; a missing name is appended. -/
def setEntries (k v : String) : List (String × String) → List (String × String)
  | [] => [(k, v)]
  | p :: ps =>
      if ciEq p.1 k then (k, v) :: ps.filter (fun q => !ciEq q.1 k)
      else p :: setEntries k v ps

/-- `m[k] = v` on a `CIMultiDict`: afterwards exactly one entry for `k`
remains. -/
def HeaderMap.setItem (h : HeaderMap) (k v : String) : HeaderMap :=
  ⟨setEntries k v h.entries⟩

/-- Entry-list part of `CIMultiDict.pop(k, default)`: only the FIRST
matching entry is removed (multidict `pop` is an alias of `popone`). -/
def popEntries (k : String) : List (String × String) → List (String × String)
  | [] => []
  | p :: ps => if ciEq p.1 k then ps else p :: popEntries k ps

/-- `m.pop(k, default)` on a `CIMultiDict`, keeping the mapping only. -/
def HeaderMap.popFirst (h : HeaderMap) (k : String) : HeaderMap :=
  ⟨popEntries k h.entries⟩

/-- `d[k] = v` on a plain Python `dict`: case-sensitive keys, insertion
order kept, re-assignment updates in place. -/
def dictSet (d : List (String × String)) (k v : String) : List (String × String) :=
  if d.any (fun p => p.1 = k) then d.map (fun p => if p.1 = k then (p.1, v) else p)
  else d ++ [(k, v)]

/-- `dict(m)` for a `CIMultiDict` `m`: CPython iterates `m.keys()` (one
key per entry, duplicates included) and performs `d[key] = m[key]`,
where `m[key]` is the first case-insensitive match; duplicate names
therefore collapse to a single entry holding the first value. -/
def HeaderMap.toDict (h : HeaderMap) : List (String × String) :=
  h.entries.foldl (fun d p => dictSet d p.1 ((h.getone p.1).getD p.2)) []

/-- Whitespace splitter on character lists: the accumulator holds the
current word reversed. -/
def splitWsAux : List Char → List Char → List (List Char)
  | [], acc => if acc.isEmpty then [] else [acc.reverse]
  | c :: cs, acc =>
      if c.isWhitespace then
        if acc.isEmpty then splitWsAux cs [] else acc.reverse :: splitWsAux cs []
      else splitWsAux cs (c :: acc)

/-- Python `s.split()` with no argument: split on runs of whitespace,
discarding empty pieces. -/
def pySplit (s : String) : List String :=
  (splitWsAux s.data []).map (fun l => ⟨l⟩)

/-- Python `s.strip()` (as `int` applies to string arguments): drop
leading and trailing whitespace. -/
def pyStrip (l : List Char) : List Char :=
  ((l.dropWhile Char.isWhitespace).reverse.dropWhile Char.isWhitespace).reverse

/-- Decimal digit run to a number, `none` on an empty or non-digit run. -/
def pyDigits (l : List Char) : Option Nat :=
  if l.isEmpty then none
  else
    l.foldl
      (fun acc c =>
        match acc with
        | none => none
        | some n => if c.isDigit then some (n * 10 + (c.toNat - 48)) else none)
      (some 0)

/-- Python `int(s)` on a string: surrounding whitespace is ignored, an
optional sign precedes a non-empty digit run; anything else raises
`ValueError` (`none`). -/
def pyIntOfString (s : String) : Option Int :=
  match pyStrip s.data with
  | '-' :: rest => (pyDigits rest).map (fun n => -(n : Int))
  | '+' :: rest => (pyDigits rest).map (fun n => (n : Int))
  | rest => (pyDigits rest).map (fun n => (n : Int))

/-- `pat` a list-prefix of `l`. -/
def isPrefixL : List Char → List Char → Bool
  | [], _ => true
  | _ :: _, [] => false
  | a :: as, b :: bs => a = b && isPrefixL as bs

/-- `pat` occurs as a contiguous sublist of `l`. -/
def hasSubList (pat : List Char) : List Char → Bool
  | [] => pat.isEmpty
  | c :: cs => isPrefixL pat (c :: cs) || hasSubList pat cs

/-- Python `pat in s` on strings: substring containment. -/
def strContains (s pat : String) : Bool := hasSubList pat.data s.data

/-- A JSON value as far as the gateway inspects one: strings, integers,
and everything else (`other` stands for null / bool / arrays / objects,
on which `int(...)` raises `TypeError`). -/
inductive JsonVal where
  | str (s : String)
  | num (n : Int)
  | other
deriving Repr, DecidableEq

/-- Key lookup in a parsed JSON object (`data[k]`), `none` when the key
is missing (Python `KeyError`). -/
def lookupJ (body : List (String × JsonVal)) (k : String) : Option JsonVal :=
  (body.find? (fun p => p.1 = k)).map (fun p => p.2)

/-- Python `int(x)` on a JSON value: integers pass through, numeric
strings parse, anything else raises (`none`). -/
def pyInt : JsonVal → Option Int
  | .num n => some n
  | .str s => pyIntOfString s
  | .other => none

/-- A `yarl.URL` as far as the gateway manipulates one. -/
structure Url where
  scheme : String
  host : String
  port : Int
  path : String
  query : String
  fragm : String
deriving Repr, DecidableEq

/-- `yarl.URL.with_scheme`: replaces the scheme only. -/
def Url.with_scheme (u : Url) (s : String) : Url := { u with scheme := s }

/-- `yarl.URL.with_host`: replaces the host only. -/
def Url.with_host (u : Url) (h : String) : Url := { u with host := h }

/-- `yarl.URL.with_port`: replaces the port only. -/
def Url.with_port (u : Url) (p : Int) : Url := { u with port := p }

/-- The inbound `web.Request`: method, full URL, the matched
`{endpoint}` route tail, header multimap and raw body bytes. -/
structure Request where
  method : String
  url : Url
  match_endpoint : String
  headers : HeaderMap
  body : List Nat
deriving Repr, DecidableEq

/-- An `aiohttp.ClientResponse` as observed by the gateway. -/
structure ClientResponse where
  status : Nat
  reason : String
  headers : HeaderMap
  body : List Nat
deriving Repr, DecidableEq

/-- `aiohttp.ClientResponse.ok`: true exactly when `status < 400`. -/
def ClientResponse.ok (r : ClientResponse) : Bool := r.status < 400

/-- The `web.Response` returned to the caller. -/
structure WebResponse where
  body : List Nat
  status : Nat
  reason : String
  headers : HeaderMap
deriving Repr, DecidableEq

/-- The terminal error outcomes of a request: the `aiohttp.web`
exceptions the handlers raise, the internal `NoTokenException`, and
`pythonError` for plain Python exceptions (KeyError / ValueError /
TypeError) escaping unguarded code. -/
inductive GatewayError where
  | httpNotFound (text : String)
  | httpBadGateway (text : String)
  | httpGatewayTimeout (text : String)
  | httpUnauthorized (text : String)
  | httpServiceUnavailable (text : String)
  | noTokenException
  | pythonError (msg : String)
deriving Repr, DecidableEq

/-- Whether an error is one of the three documented discovery-failure
mappings (`RouteNotFound` / `DiscoveryBadResponse` /
`DiscoveryUnavailable`). -/
def isMappedDiscoveryError : GatewayError → Bool
  | .httpNotFound _ => true
  | .httpBadGateway _ => true
  | .httpGatewayTimeout _ => true
  | _ => false

/-- What one outbound HTTP call observes: a connection-level failure
(`aiohttp.ClientConnectorError`) or a response carrying a status and a
parsed JSON body. -/
inductive NetReply where
  | connFailure
  | response (status : Nat) (body : List (String × JsonVal))
deriving Repr, DecidableEq

/-- What the backend forward observes: a connection-level failure or a
full HTTP response. -/
inductive BackendReply where
  | connFailure
  | response (r : ClientResponse)
deriving Repr, DecidableEq

/-- The `rest.auth` configuration section. -/
structure AuthConfig where
  enabled : Bool
  host : String
  port : Nat
  method : String
  path : String
deriving Repr, DecidableEq

/-- The `discovery` configuration section. -/
structure DiscoveryConfig where
  host : String
  port : Nat
deriving Repr, DecidableEq

/-- The configuration slice the handler reads. -/
structure Config where
  discovery : DiscoveryConfig
  auth : Option AuthConfig
deriving Repr, DecidableEq

/-- The replies of the three collaborating services for one request. -/
structure Env where
  discovery : NetReply
  auth : NetReply
  backend : BackendReply
deriving Repr, DecidableEq

/-- The text of the f-string in the 404 branch of `discover`. -/
def notFoundText (verb endpoint : String) : String :=
  "The \x27" ++ endpoint ++ "\x27 path is not available for \x27" ++ verb ++ "\x27 method."

/-- A request body as the gateway sends it: method, URL, wire header
pairs and body bytes. -/
structure OutboundRequest where
  method : String
  url : Url
  headers : List (String × String)
  body : List Nat
deriving Repr, DecidableEq

/-- `discover(host, port, path, verb, endpoint)`: queries the discovery
service and maps its reply. On `ClientConnectorError` →
`HTTPGatewayTimeout`; on a non-ok status → `HTTPNotFound` for 404 and
`HTTPBadGateway` otherwise; on success the body is read and
`data["port"] = int(data["port"])` runs UNGUARDED, so a missing or
non-coercible port raises a plain Python error, and `call(**data, ...)`
later needs an `address` string. The discovery query URL parameters
(`host`, `port`, `path`) do not influence the mapping and are kept for
signature fidelity. -/
def discover (host : String) (port : Nat) (path : String) (verb : String)
    (endpoint : String) (reply : NetReply) : Except GatewayError (String × Int) :=
  match reply with
  | .connFailure => .error (.httpGatewayTimeout "The Discovery Service is not available.")
  | .response status body =>
      if status < 400 then
        match lookupJ body "port" with
        | none => .error (.pythonError "KeyError: port")
        | some pv =>
            match pyInt pv with
            | none => .error (.pythonError "int() cannot coerce port")
            | some p =>
                match lookupJ body "address" with
                | none => .error (.pythonError "TypeError: call() missing argument address")
                | some (.str a) => .ok (a, p)
                | some _ => .error (.pythonError "address is not a string")
      else if status = 404 then
        .error (.httpNotFound (notFoundText verb endpoint))
      else
        .error (.httpBadGateway "The Discovery Service response is wrong.")

/-- `get_token(request)`: requires an `Authorization` header whose value
contains the substring `Bearer` and splits (on whitespace) into exactly
two parts; returns the second part, else raises `NoTokenException`. -/
def get_token (request : Request) : Except GatewayError String :=
  match request.headers.getone "Authorization" with
  | none => .error .noTokenException
  | some v =>
      if strContains v "Bearer" then
        match pySplit v with
        | [_, t] => .ok t
        | _ => .error .noTokenException
      else .error .noTokenException

/-- The URL built by `authenticate` from the f-string
"http://{host}:{port}{path}": scheme `http`, the configured host, port
and path, no query, no fragment. -/
def authUrl (host : String) (port : Nat) (path : String) : Url :=
  { scheme := "http", host := host, port := port, path := path, query := "", fragm := "" }

/-- `authenticate(host, port, method, path, authorization_headers)`:
issues the configured request carrying `authorization_headers` as
session headers; on a non-ok status raises `HTTPUnauthorized`, on
`ClientConnectorError` raises `HTTPGatewayTimeout`, on success returns
`payload["sub"]` (a missing `sub` key raises `KeyError`; the value is
annotated `str`, non-string values are modelled as escaping errors).
The first component is the request as issued. -/
def authenticate (host : String) (port : Nat) (method : String) (path : String)
    (authorization_headers : List (String × String)) (reply : NetReply) :
    OutboundRequest × Except GatewayError String :=
  let out : OutboundRequest :=
    { method := method, url := authUrl host port path,
      headers := authorization_headers, body := [] }
  (out,
    match reply with
    | .connFailure =>
        .error (.httpGatewayTimeout "The Authentication Service is not available.")
    | .response status body =>
        if status < 400 then
          match lookupJ body "sub" with
          | some (.str s) => .ok s
          | some _ => .error (.pythonError "sub is not a string")
          | none => .error (.pythonError "KeyError: sub")
        else
          .error (.httpUnauthorized "The given request does not have authorization to be forwarded."))

/-- `get_user(request)`: `None` when auth is absent or disabled; a
missing/malformed bearer credential (`NoTokenException` from
`get_token`, the only exception it raises) is swallowed and yields
`None`; otherwise `authenticate` runs on
`dict(request.headers.copy())` and its result (or error) propagates. -/
def get_user (auth : Option AuthConfig) (request : Request) (reply : NetReply) :
    Except GatewayError (Option String) :=
  match auth with
  | none => .ok none
  | some a =>
      if !a.enabled then .ok none
      else
        match get_token request with
        | .error _ => .ok none
        | .ok _ =>
            match (authenticate a.host a.port a.method a.path
                request.headers.toDict reply).2 with
            | .ok u => .ok (some u)
            | .error e => .error e

/-- The request `get_user` issues to the authentication service once a
token is present. -/
def authOutbound (a : AuthConfig) (request : Request) (reply : NetReply) : OutboundRequest :=
  (authenticate a.host a.port a.method a.path request.headers.toDict reply).1

/-- The header block of `call`: clone the inbound headers, then
`headers["User"] = user` when an identity is present, else
`headers.pop("User", None)`. -/
def forwardHeaders (original : HeaderMap) (user : Option String) : HeaderMap :=
  match user with
  | some u => original.setItem "User" u
  | none => original.popFirst "User"

/-- `_clone_response(response)`: a `web.Response` built from the
backend body, status, reason and headers. -/
def clone_response (r : ClientResponse) : WebResponse :=
  { body := r.body, status := r.status, reason := r.reason, headers := r.headers }

/-- `call(address, port, original_req, user)`: rewrites the `User`
header, rebuilds the URL with scheme `http`, the resolved host and
port, forwards the method and the raw body, and clones the backend
response; `ClientConnectorError` → `HTTPServiceUnavailable`. The first
component is the request as issued to the backend. -/
def call (address : String) (port : Int) (original_req : Request) (user : Option String)
    (reply : BackendReply) : OutboundRequest × Except GatewayError WebResponse :=
  let headers := forwardHeaders original_req.headers user
  let url := ((original_req.url.with_scheme "http").with_host address).with_port port
  let method := original_req.method
  let data := original_req.body
  let out : OutboundRequest :=
    { method := method, url := url, headers := headers.entries, body := data }
  (out,
    match reply with
    | .connFailure =>
        .error (.httpServiceUnavailable "The requested endpoint is not available.")
    | .response r => .ok (clone_response r))

/-- `orchestrate(request)`: discovery, then identity resolution, then
the backend call. The second component records every request issued to
a backend (empty when the backend was never contacted); a raised
`GatewayError` aborts the pipeline at its step. -/
def orchestrate (cfg : Config) (env : Env) (request : Request) :
    Except GatewayError WebResponse × List OutboundRequest :=
  match discover cfg.discovery.host cfg.discovery.port "/microservices"
      request.method ("/" ++ request.match_endpoint) env.discovery with
  | .error e => (.error e, [])
  | .ok (address, port) =>
      match get_user cfg.auth request env.auth with
      | .error e => (.error e, [])
      | .ok user =>
          let r := call address port request user env.backend
          (r.2, [r.1])

/-! ## Concrete fixtures used by witnesses and counterexamples -/

/-- An inbound request carrying two client-supplied `User` headers and
no credential. -/
def c1req : Request :=
  { method := "GET",
    url := { scheme := "http", host := "gateway", port := 80,
             path := "/orders", query := "", fragm := "" },
    match_endpoint := "orders",
    headers := ⟨[("User", "evil-a"), ("User", "evil-b")]⟩,
    body := [] }

/-- An inbound request with no headers at all. -/
def bareReq : Request :=
  { method := "GET",
    url := { scheme := "http", host := "gateway", port := 80,
             path := "/orders", query := "", fragm := "" },
    match_endpoint := "orders",
    headers := ⟨[]⟩,
    body := [] }

/-- An inbound request with a well-formed bearer credential and a
duplicated custom header. -/
def dupReq : Request :=
  { method := "GET",
    url := { scheme := "http", host := "gateway", port := 80,
             path := "/orders", query := "v=1", fragm := "" },
    match_endpoint := "orders",
    headers := ⟨[("Authorization", "Bearer tok"), ("X-Dup", "a"), ("X-Dup", "b")]⟩,
    body := [10, 20] }

/-- An enabled authentication configuration. -/
def authCfg : AuthConfig :=
  { enabled := true, host := "auth", port := 8081, method := "POST", path := "/token" }

/-- A gateway configuration with authentication disabled (absent). -/
def cfgNoAuth : Config := { discovery := { host := "discovery", port := 5567 }, auth := none }

/-- The backend reply used by concrete forwarding scenarios. -/
def okBackend : BackendReply :=
  .response { status := 201, reason := "Created", headers := ⟨[("X-Foo", "bar")]⟩, body := [111, 107] }

/-- The backend response of the round-trip scenario: status 201, reason
"Created", headers X-Foo: bar, body "ok". -/
def c6resp : ClientResponse :=
  { status := 201, reason := "Created", headers := ⟨[("X-Foo", "bar")]⟩, body := [111, 107] }

/-! ## Claims -/

/-- C1: the claim states that on every forward attempt the `User`
header never reflects client-supplied data — when the identity is
absent no `User` header survives at all, even on a request carrying
several `User` entries. The code violates this: `headers.pop("User",
None)` on a `CIMultiDict` removes only the FIRST `User` entry, so with
identity absent and two client-supplied `User` headers the second one
is forwarded to the backend verbatim. This theorem evaluates the
forwarder at the failing input. -/
theorem c1_client_user_header_survives_pop :
    (call "10.0.0.5" 9000 c1req none okBackend).1.headers = [("User", "evil-b")] ∧
    ("User", "evil-b") ∈ c1req.headers.entries := by
  exact ⟨rfl, by decide⟩

/-- C2: every discovery failure is terminal — the orchestrator returns
the mapped error and the backend-call trace stays empty; in particular
a 404 discovery response yields the not-found error and a refused
discovery connection yields the gateway-timeout error, in both cases
without any backend request. -/
theorem c2_discovery_failure_is_terminal (cfg : Config) (env : Env) (request : Request) :
    (∀ e, discover cfg.discovery.host cfg.discovery.port "/microservices" request.method
        ("/" ++ request.match_endpoint) env.discovery = .error e →
      orchestrate cfg env request = (.error e, [])) ∧
    (env.discovery = .connFailure →
      orchestrate cfg env request =
        (.error (.httpGatewayTimeout "The Discovery Service is not available."), [])) ∧
    (∀ body, env.discovery = .response 404 body →
      orchestrate cfg env request =
        (.error (.httpNotFound (notFoundText request.method ("/" ++ request.match_endpoint))), [])) := by
  refine ⟨fun e he => by simp [orchestrate, he], fun hc => by simp [orchestrate, hc, discover],
    fun body hb => ?_⟩
  simp [orchestrate, hb, discover]

/-- C2 witness: a refused discovery connection at a concrete request
produces the gateway-timeout error with no backend call. -/
theorem c2_witness :
    orchestrate cfgNoAuth ⟨.connFailure, .connFailure, okBackend⟩ bareReq =
      (.error (.httpGatewayTimeout "The Discovery Service is not available."), []) :=
  (c2_discovery_failure_is_terminal cfgNoAuth ⟨.connFailure, .connFailure, okBackend⟩ bareReq).2.1 rfl

/-- C3: the Discovery Resolver maps a connection failure to the
gateway-timeout error, a 404 status to the not-found error, any other
non-success status to the bad-gateway error, and returns a target only
on a success status. -/
theorem c3_discover_error_mapping (host : String) (port : Nat) (path verb endpoint : String)
    (reply : NetReply) :
    (reply = .connFailure →
      discover host port path verb endpoint reply =
        .error (.httpGatewayTimeout "The Discovery Service is not available.")) ∧
    (∀ body, reply = .response 404 body →
      discover host port path verb endpoint reply =
        .error (.httpNotFound (notFoundText verb endpoint))) ∧
    (∀ status body, reply = .response status body → 400 ≤ status → status ≠ 404 →
      discover host port path verb endpoint reply =
        .error (.httpBadGateway "The Discovery Service response is wrong.")) ∧
    (∀ t, discover host port path verb endpoint reply = .ok t →
      ∃ status body, reply = .response status body ∧ status < 400) := by
  refine ⟨fun hc => by simp [hc, discover], fun body hb => by subst hb; simp [discover],
    fun status body hb h4 hne => ?_, fun t ht => ?_⟩
  · subst hb
    simp [discover, Nat.not_lt.mpr h4, hne]
  · cases reply with
    | connFailure => simp [discover] at ht
    | response status body =>
        refine ⟨status, body, rfl, ?_⟩
        by_contra h
        by_cases h4 : status = 404 <;> simp [discover, h, h4] at ht

/-- C3 witness: a 404 discovery response at concrete arguments maps to
the not-found error. -/
theorem c3_witness :
    discover "discovery" 5567 "/microservices" "GET" "/orders" (.response 404 []) =
      .error (.httpNotFound (notFoundText "GET" "/orders")) :=
  (c3_discover_error_mapping "discovery" 5567 "/microservices" "GET" "/orders"
    (.response 404 [])).2.1 [] rfl

/-- C4: with authentication enabled, a request on which the token
extractor fails (missing or malformed bearer credential) resolves to
the absent identity without error, and this holds for EVERY reply of
the authentication service — the endpoint is never consulted. -/
theorem c4_missing_credential_is_anonymous (a : AuthConfig) (request : Request)
    (reply : NetReply) (h : get_token request = .error .noTokenException) :
    get_user (some a) request reply = .ok none := by
  by_cases he : a.enabled <;> simp [get_user, he, h]

/-- C4 witness: a request with no headers, an enabled configuration and
an unreachable authentication service still yields the absent identity. -/
theorem c4_witness : get_user (some authCfg) bareReq .connFailure = .ok none :=
  c4_missing_credential_is_anonymous authCfg bareReq .connFailure rfl

/-- C6: the response returned to the caller is a field-exact clone of
the backend response — status, reason, headers and body unchanged — and
in particular the 201/"Created"/X-Foo: bar/"ok" round-trip is exact. -/
theorem c6_clone_response_byte_exact :
    (∀ r : ClientResponse,
      (clone_response r).status = r.status ∧ (clone_response r).reason = r.reason ∧
      (clone_response r).headers = r.headers ∧ (clone_response r).body = r.body) ∧
    clone_response c6resp =
      { body := [111, 107], status := 201, reason := "Created",
        headers := ⟨[("X-Foo", "bar")]⟩ } :=
  ⟨fun r => ⟨rfl, rfl, rfl, rfl⟩, rfl⟩

/-- C10: the discovery success path is partial — a success-status reply
whose JSON body lacks a `port` field, or whose `port` value cannot be
coerced to an integer, makes `discover` fail with a plain Python error
that is none of the three documented discovery-failure mappings. -/
theorem c10_unguarded_port_coercion :
    discover "discovery" 5567 "/microservices" "GET" "/orders"
        (.response 200 [("address", .str "10.0.0.5")]) =
      .error (.pythonError "KeyError: port") ∧
    discover "discovery" 5567 "/microservices" "GET" "/orders"
        (.response 200 [("address", .str "10.0.0.5"), ("port", .str "nine")]) =
      .error (.pythonError "int() cannot coerce port") ∧
    isMappedDiscoveryError (.pythonError "KeyError: port") = false ∧
    isMappedDiscoveryError (.pythonError "int() cannot coerce port") = false :=
  ⟨rfl, rfl, rfl, rfl⟩

/-- C5: the Authenticator fails with the unauthorized error exactly
when the authentication service replies with a non-success status, and
with the gateway-timeout error exactly when the connection fails at the
transport level; both failures propagate through `get_user` (the
implemented policy never swallows them) and abort the orchestration
before any backend call. -/
theorem c5_authenticate_error_mapping (host : String) (port : Nat) (method path : String)
    (hdrs : List (String × String)) (reply : NetReply) :
    ((authenticate host port method path hdrs reply).2 =
        .error (.httpUnauthorized "The given request does not have authorization to be forwarded.") ↔
      ∃ status body, reply = .response status body ∧ 400 ≤ status) ∧
    ((authenticate host port method path hdrs reply).2 =
        .error (.httpGatewayTimeout "The Authentication Service is not available.") ↔
      reply = .connFailure) ∧
    (∀ (a : AuthConfig) (request : Request) (e : GatewayError) (t : String),
      a.enabled = true → get_token request = .ok t →
      (authenticate a.host a.port a.method a.path request.headers.toDict reply).2 = .error e →
      get_user (some a) request reply = .error e) ∧
    (∀ (cfg : Config) (env : Env) (request : Request) (e : GatewayError)
        (address : String) (prt : Int),
      discover cfg.discovery.host cfg.discovery.port "/microservices" request.method
          ("/" ++ request.match_endpoint) env.discovery = .ok (address, prt) →
      get_user cfg.auth request env.auth = .error e →
      orchestrate cfg env request = (.error e, [])) := by
  refine ⟨?_, ?_, fun a request e t ha ht hae => ?_,
    fun cfg env request e address prt hd hu => ?_⟩
  · cases reply with
    | connFailure => simp [authenticate]
    | response status body =>
        by_cases h : status < 400
        · rcases hs : lookupJ body "sub" with _ | v
          · simp [authenticate, h, hs, Nat.not_le.mpr h]
          · cases v <;> simp [authenticate, h, hs, Nat.not_le.mpr h]
        · simp [authenticate, h, Nat.not_lt.mp h]
  · cases reply with
    | connFailure => simp [authenticate]
    | response status body =>
        by_cases h : status < 400
        · rcases hs : lookupJ body "sub" with _ | v
          · simp [authenticate, h, hs]
          · cases v <;> simp [authenticate, h, hs]
        · simp [authenticate, h]
  · simp [get_user, ha, ht, hae]
  · simp [orchestrate, hd, hu]

/-- C5 witness: a refused connection to the authentication service at
concrete arguments yields the gateway-timeout error. -/
theorem c5_witness :
    (authenticate "auth" 8081 "POST" "/token" [] .connFailure).2 =
      .error (.httpGatewayTimeout "The Authentication Service is not available.") :=
  (c5_authenticate_error_mapping "auth" 8081 "POST" "/token" [] .connFailure).2.1.mpr rfl

/-- C7: whenever discovery succeeds and identity resolution succeeds
(or is skipped), the orchestrator issues exactly one backend request,
whose URL has scheme `http`, the resolved host and port with the
original path, query and fragment preserved, whose method matches the
inbound request, and whose body is the unchanged inbound body bytes. -/
theorem c7_forwarded_request_fidelity (cfg : Config) (env : Env) (request : Request)
    (address : String) (port : Int) (user : Option String)
    (hd : discover cfg.discovery.host cfg.discovery.port "/microservices" request.method
        ("/" ++ request.match_endpoint) env.discovery = .ok (address, port))
    (hu : get_user cfg.auth request env.auth = .ok user) :
    ∃ out : OutboundRequest,
      (orchestrate cfg env request).2 = [out] ∧
      out.method = request.method ∧
      out.body = request.body ∧
      out.url.scheme = "http" ∧ out.url.host = address ∧ out.url.port = port ∧
      out.url.path = request.url.path ∧ out.url.query = request.url.query ∧
      out.url.fragm = request.url.fragm := by
  refine ⟨(call address port request user env.backend).1, by simp [orchestrate, hd, hu], ?_⟩
  exact ⟨rfl, rfl, rfl, rfl, rfl, rfl, rfl, rfl⟩

/-- C7 witness: a concrete successful discovery with skipped
authentication forwards the inbound method, body, path, query and
fragment to `http` at the resolved host and port. -/
theorem c7_witness :
    ∃ out : OutboundRequest,
      (orchestrate cfgNoAuth
          ⟨.response 200 [("address", .str "10.0.0.5"), ("port", .num 9000)],
            .connFailure, okBackend⟩ dupReq).2 = [out] ∧
      out.method = dupReq.method ∧
      out.body = dupReq.body ∧
      out.url.scheme = "http" ∧ out.url.host = "10.0.0.5" ∧ out.url.port = 9000 ∧
      out.url.path = dupReq.url.path ∧ out.url.query = dupReq.url.query ∧
      out.url.fragm = dupReq.url.fragm :=
  c7_forwarded_request_fidelity cfgNoAuth
    ⟨.response 200 [("address", .str "10.0.0.5"), ("port", .num 9000)],
      .connFailure, okBackend⟩ dupReq "10.0.0.5" 9000 none rfl rfl

/-- C8: the token extractor returns a token exactly when an
`Authorization` header exists (first case-insensitive entry), its value
contains the substring `Bearer`, and the value splits on whitespace
into exactly two parts, in which case the result is the second part; in
every other case it fails with the no-token error. -/
theorem c8_get_token_characterisation (request : Request) :
    (∀ t, get_token request = .ok t ↔
      ∃ v s, request.headers.getone "Authorization" = some v ∧
        strContains v "Bearer" = true ∧ pySplit v = [s, t]) ∧
    ((¬ ∃ v s t, request.headers.getone "Authorization" = some v ∧
        strContains v "Bearer" = true ∧ pySplit v = [s, t]) →
      get_token request = .error .noTokenException) := by
  constructor
  · intro t
    constructor
    · intro h
      rcases hv : request.headers.getone "Authorization" with _ | v
      · simp [get_token, hv] at h
      · by_cases hb : strContains v "Bearer"
        · cases hs : pySplit v with
          | nil => simp [get_token, hv, hb, hs] at h
          | cons a l =>
              cases l with
              | nil => simp [get_token, hv, hb, hs] at h
              | cons b rest =>
                  cases rest with
                  | nil =>
                      refine ⟨v, a, rfl, hb, ?_⟩
                      have hbt : b = t := by simpa [get_token, hv, hb, hs] using h
                      rw [hs, hbt]
                  | cons c cs => simp [get_token, hv, hb, hs] at h
        · simp [get_token, hv, hb] at h
    · rintro ⟨v, s, hv, hb, hs⟩
      simp [get_token, hv, hb, hs]
  · intro hne
    rcases hv : request.headers.getone "Authorization" with _ | v
    · simp [get_token, hv]
    · by_cases hb : strContains v "Bearer"
      · cases hs : pySplit v with
        | nil => simp [get_token, hv, hb, hs]
        | cons a l =>
            cases l with
            | nil => simp [get_token, hv, hb, hs]
            | cons b rest =>
                cases rest with
                | nil => exact absurd ⟨v, a, b, hv, hb, hs⟩ hne
                | cons c cs => simp [get_token, hv, hb, hs]
      · simp [get_token, hv, hb]

/-- C8 witness: at a concrete request whose `Authorization` value is
"Bearer tok", the extractor returns "tok". -/
theorem c8_witness : get_token dupReq = .ok "tok" :=
  ((c8_get_token_characterisation dupReq).1 "tok").mpr
    ⟨"Bearer tok", "Bearer", rfl, by decide, by decide⟩

/-- C9 counterexample: the claim requires the request sent to the
authentication service to carry the inbound header multimap as-is,
duplicates included; on a concrete request with two `X-Dup` entries the
issued request has lost the second one, because the source converts the
multimap through `dict(request.headers.copy())`. -/
theorem c9_counterexample :
    ("X-Dup", "b") ∈ dupReq.headers.entries ∧
    ("X-Dup", "b") ∉
      (authOutbound authCfg dupReq (.response 200 [("sub", .str "user-42")])).headers := by
  decide

/-- C9 (amended): for every authenticated request, the request issued
to the authentication service uses the configured method, the URL built
from the configured host, port and path, and carries the DICT
CONVERSION of the caller's original header multimap — one entry per
header name holding its first value, duplicate entries dropped — and on
a success status the string `sub` field of the JSON body becomes the
caller identity. -/
theorem c9_auth_request_shape (a : AuthConfig) (request : Request) (reply : NetReply)
    (status : Nat) (body : List (String × JsonVal)) (s t : String)
    (henabled : a.enabled = true) (htok : get_token request = .ok t) :
    (authOutbound a request reply).method = a.method ∧
    (authOutbound a request reply).url = authUrl a.host a.port a.path ∧
    (authOutbound a request reply).headers = request.headers.toDict ∧
    (reply = .response status body → status < 400 → lookupJ body "sub" = some (.str s) →
      get_user (some a) request reply = .ok (some s)) := by
  refine ⟨rfl, rfl, rfl, fun hr hst hsub => ?_⟩
  simp [get_user, henabled, htok, authenticate, hr, hst, hsub]

/-- C9 witness: at a concrete request with a bearer token and a
duplicated header, the issued auth request carries the dict conversion
of the inbound headers and the `sub` value becomes the identity. -/
theorem c9_witness :
    (authOutbound authCfg dupReq (.response 200 [("sub", .str "user-42")])).headers =
      dupReq.headers.toDict ∧
    get_user (some authCfg) dupReq (.response 200 [("sub", .str "user-42")]) =
      .ok (some "user-42") :=
  let h := c9_auth_request_shape authCfg dupReq (.response 200 [("sub", .str "user-42")])
    200 [("sub", .str "user-42")] "user-42" "tok" rfl rfl
  ⟨h.2.2.1, h.2.2.2 rfl (by decide) rfl⟩

end ApiGateway
